import Mathlib

/-!
Verification of the kubecustom deployment-lifecycle layer.

The repository ships documentation, worked examples with recorded
outputs, and the deployment manifest template
`kubecustom/template_files/deployment_qca.yaml`.  The Python modules
`kubecustom/kubecustom.py`, `kubecustom/deployment.py`,
`kubecustom/pod.py` and `kubecustom/secret.py` are not distributed
here, so their behaviour is modelled from the specification and from
the recorded example outputs; each such definition carries a doc
comment saying so.  The manifest template itself is embedded directly
from the source file.
-/

namespace Kubecustom

/-- Modelled from the spec: the `MyData` configuration store
(`kubecustom/secret.py`) is not under `src/`.  A configuration is the
named bundle of per-environment settings listed in spec section 3:
configuration key, credentials, cluster user id, namespace, container
name and image, and cluster name. -/
structure Configuration where
  configuration_key : String
  username : String
  password : String
  cluster_user_id : String
  team_namespace : String
  container_name : String
  container_image : String
  cluster_name : String
deriving Repr, DecidableEq

/-- Modelled from the spec: `get_deployment_name` in
`kubecustom/kubecustom.py` is not under `src/`.  The spec derives the
deployment name deterministically from (cluster_user_id,
configuration_key, tag); the documented scenario (configuration
"qca-psi4", cluster_user_id "jac", tag "pyddx-600" giving
"openff-jac-qca-psi4-pyddx-600") fixes the concrete layout
`openff-<cluster_user_id>-<configuration_key>-<tag>`. -/
def get_deployment_name (cfg : Configuration) (tag : String) : String :=
  "openff-" ++ cfg.cluster_user_id ++ "-" ++ cfg.configuration_key ++ "-" ++ tag

/-- The "qca-psi4" configuration of the documented example, with
cluster_user_id "jac"; fields not involved in naming take the
placeholder values of the getting-started guide. -/
def qca_psi4_example : Configuration :=
  { configuration_key := "qca-psi4"
    username := "myusername"
    password := "mypassword"
    cluster_user_id := "jac"
    team_namespace := "openforcefield"
    container_name := "my-org-pod"
    container_image := "ghcr.io/image"
    cluster_name := "our_kubernetes_cluster" }

/-- The "qca-xtb" configuration of the documented example: same user,
different configuration key. -/
def qca_xtb_example : Configuration :=
  { qca_psi4_example with configuration_key := "qca-xtb" }

/-- One discrete call against the cluster API, as issued by the
deployment manager and pod inspector. -/
inductive ApiCall
  | createSecret (name : String)
  | createDeployment (name : String)
  | deleteDeployment (name : String)
  | deleteSecret (name : String)
  | deletePod (name : String)
deriving Repr, DecidableEq

/-- The cluster-side objects relevant to the lifecycle claims: which
deployment names and which secret names currently exist. -/
structure ClusterState where
  deployments : List String
  secrets : List String
deriving Repr, DecidableEq

/-- Modelled from the spec: `get_deployment_name` performs no API
call.  Running it against a cluster state returns the pure name, the
untouched state, and an empty API-call trace. -/
def get_deployment_name_run (w : ClusterState) (cfg : Configuration) (tag : String) :
    String × ClusterState × List ApiCall :=
  (get_deployment_name cfg tag, w, [])

end Kubecustom

namespace Kubecustom

/-- C1: with the active configuration "qca-psi4" whose cluster_user_id
is "jac", `get_deployment_name "pyddx-600"` returns exactly
"openff-jac-qca-psi4-pyddx-600", embedding the cluster_user_id, the
configuration key and the tag. -/
theorem get_deployment_name_qca_psi4_pyddx (cfg : Configuration)
    (hkey : cfg.configuration_key = "qca-psi4")
    (huser : cfg.cluster_user_id = "jac") :
    get_deployment_name cfg "pyddx-600" = "openff-jac-qca-psi4-pyddx-600" := by
  simp [get_deployment_name, hkey, huser]

/-- Witness for C1 at the documented example configuration. -/
theorem get_deployment_name_qca_psi4_pyddx_witness :
    get_deployment_name qca_psi4_example "pyddx-600" = "openff-jac-qca-psi4-pyddx-600" :=
  get_deployment_name_qca_psi4_pyddx qca_psi4_example rfl rfl

/-- C2: for every tag, the name produced under an active configuration
with key "qca-psi4" differs from the name produced under a
configuration with key "qca-xtb" for the same cluster user. -/
theorem get_deployment_name_distinct_configs (c1 c2 : Configuration) (tag : String)
    (huser : c1.cluster_user_id = c2.cluster_user_id)
    (h1 : c1.configuration_key = "qca-psi4")
    (h2 : c2.configuration_key = "qca-xtb") :
    get_deployment_name c1 tag ≠ get_deployment_name c2 tag := by
  intro h
  rw [get_deployment_name, get_deployment_name, huser, h1, h2] at h
  have hlen := congrArg String.length h
  simp [String.length_append] at hlen
  exact absurd hlen (by decide)

/-- Witness for C2 at tag "my-tag" under the documented example
configurations. -/
theorem get_deployment_name_distinct_configs_witness :
    get_deployment_name qca_psi4_example "my-tag" ≠ get_deployment_name qca_xtb_example "my-tag" :=
  get_deployment_name_distinct_configs qca_psi4_example qca_xtb_example "my-tag" rfl rfl rfl

/-- C8: `get_deployment_name` is pure and deterministic: its run
leaves the cluster state untouched and issues no API call, its output
does not depend on the cluster state, and it depends only on the
active configuration's cluster_user_id and configuration_key together
with the tag. -/
theorem get_deployment_name_pure (w1 w2 : ClusterState) (c1 c2 : Configuration) (tag : String) :
    (get_deployment_name_run w1 c1 tag).2.2 = []
    ∧ (get_deployment_name_run w1 c1 tag).2.1 = w1
    ∧ (get_deployment_name_run w1 c1 tag).1 = (get_deployment_name_run w2 c1 tag).1
    ∧ (c1.cluster_user_id = c2.cluster_user_id → c1.configuration_key = c2.configuration_key →
        get_deployment_name c1 tag = get_deployment_name c2 tag) := by
  refine ⟨rfl, rfl, rfl, fun hu hk => ?_⟩
  rw [get_deployment_name, get_deployment_name, hu, hk]

/-- Witness for C8: two configurations agreeing on user id and key
yield the same name for the tag "pyddx-600". -/
theorem get_deployment_name_pure_witness :
    get_deployment_name qca_psi4_example "pyddx-600"
      = get_deployment_name { qca_psi4_example with password := "other" } "pyddx-600" :=
  (get_deployment_name_pure ⟨[], []⟩ ⟨[], []⟩ qca_psi4_example
    { qca_psi4_example with password := "other" } "pyddx-600").2.2.2 rfl rfl

/-- A piece of a manifest template: either literal text or a named
placeholder such as DEPLOYMENTNAME or USER. -/
inductive TemplateToken
  | lit (s : String)
  | ph (p : String)
deriving Repr, DecidableEq

/-- Failure of template rendering: some placeholder had no supplied
value. -/
inductive TemplateError
  | missingPlaceholder (p : String)
deriving Repr, DecidableEq

/-- The placeholders occurring in a template, in order. -/
def template_placeholders : List TemplateToken → List String
  | [] => []
  | .lit _ :: ts => template_placeholders ts
  | .ph p :: ts => p :: template_placeholders ts

/-- One substituted template piece: literals unchanged, placeholders
replaced by their looked-up value. -/
def subst_token (vals : List (String × String)) : TemplateToken → String
  | .lit s => s
  | .ph p => (vals.lookup p).getD ""

/-- Modelled from the spec: the Template Renderer
(`kubecustom/utils.py` YAML substitution) is not under `src/`.  It
walks the template, replaces every placeholder by its value from the
mapping, and fails with a `TemplateError` on the first placeholder
that has no value; no placeholder is ever left as literal text in a
successful result.  As a function of its two arguments it is
deterministic by construction. -/
def render_template (vals : List (String × String)) :
    List TemplateToken → Except TemplateError (List String)
  | [] => .ok []
  | .lit s :: ts => (render_template vals ts).map (fun r => s :: r)
  | .ph p :: ts =>
    match vals.lookup p with
    | some v => (render_template vals ts).map (fun r => v :: r)
    | none => .error (.missingPlaceholder p)

/-- `Except.map` produces an `ok` exactly when its argument is. -/
theorem exists_map_ok {α β γ : Type} (f : α → β) (e : Except γ α) :
    (∃ o, e.map f = .ok o) ↔ ∃ r, e = .ok r := by
  cases e <;> simp [Except.map]

/-- Rendering succeeds exactly when every placeholder of the template
has a value in the mapping. -/
theorem render_ok_iff (vals : List (String × String)) (ts : List TemplateToken) :
    (∃ out, render_template vals ts = .ok out) ↔
      ∀ p ∈ template_placeholders ts, (vals.lookup p).isSome = true := by
  induction ts with
  | nil => simp [render_template, template_placeholders]
  | cons t ts ih =>
    cases t with
    | lit s =>
      rw [render_template,
        show template_placeholders (.lit s :: ts) = template_placeholders ts from rfl]
      rw [exists_map_ok]
      exact ih
    | ph p =>
      rw [render_template,
        show template_placeholders (.ph p :: ts) = p :: template_placeholders ts from rfl]
      cases hv : vals.lookup p with
      | some v =>
        rw [exists_map_ok]
        constructor
        · intro hex q hq
          rcases List.mem_cons.mp hq with rfl | hq2
          · rw [hv]; rfl
          · exact (ih.mp hex) q hq2
        · intro hall
          exact ih.mpr (fun q hq => hall q (List.mem_cons_of_mem _ hq))
      | none =>
        constructor
        · rintro ⟨o, ho⟩; cases ho
        · intro hall
          have hp := hall p (List.mem_cons_self p _)
          rw [hv] at hp
          cases hp

/-- A successful rendering substitutes every token: the output is the
pointwise substitution of the template, so no placeholder survives as
literal text. -/
theorem render_ok_subst (vals : List (String × String)) (ts : List TemplateToken) :
    ∀ out, render_template vals ts = .ok out → out = ts.map (subst_token vals) := by
  induction ts with
  | nil =>
    intro out h
    cases h
    rfl
  | cons t ts ih =>
    intro out h
    cases t with
    | lit s =>
      rw [render_template] at h
      cases hr : render_template vals ts with
      | ok o =>
        rw [hr] at h
        cases h
        rw [List.map_cons, ← ih o hr]
        rfl
      | error e => rw [hr] at h; cases h
    | ph p =>
      rw [render_template] at h
      cases hv : vals.lookup p with
      | some v =>
        rw [hv] at h
        cases hr : render_template vals ts with
        | ok o =>
          rw [hr] at h
          cases h
          rw [List.map_cons, ← ih o hr]
          show v :: o = subst_token vals (.ph p) :: o
          rw [subst_token, hv]
          rfl
        | error e => rw [hr] at h; cases h
      | none => rw [hv] at h; cases h

/-- A failed rendering names a placeholder of the template that has no
value in the mapping. -/
theorem render_error_missing (vals : List (String × String)) (ts : List TemplateToken) :
    ∀ e, render_template vals ts = .error e →
      ∃ p, e = .missingPlaceholder p ∧ p ∈ template_placeholders ts ∧ vals.lookup p = none := by
  induction ts with
  | nil => intro e h; cases h
  | cons t ts ih =>
    intro e h
    cases t with
    | lit s =>
      rw [render_template] at h
      cases hr : render_template vals ts with
      | ok o => rw [hr] at h; cases h
      | error e2 =>
        rw [hr] at h
        cases h
        obtain ⟨p, hp1, hp2, hp3⟩ := ih _ hr
        exact ⟨p, hp1, hp2, hp3⟩
    | ph p =>
      rw [render_template] at h
      cases hv : vals.lookup p with
      | some v =>
        rw [hv] at h
        cases hr : render_template vals ts with
        | ok o => rw [hr] at h; cases h
        | error e2 =>
          rw [hr] at h
          cases h
          obtain ⟨q, hq1, hq2, hq3⟩ := ih _ hr
          exact ⟨q, hq1, List.mem_cons_of_mem _ hq2, hq3⟩
      | none =>
        rw [hv] at h
        cases h
        exact ⟨p, rfl, List.mem_cons_self p _, hv⟩

/-- C3: rendering succeeds, substituting every placeholder, exactly
when the template's placeholder set is a subset of the mapping's keys;
otherwise it fails with a `TemplateError` naming a missing
placeholder.  Both outcomes are deterministic since `render_template`
is a function of the template and the mapping. -/
theorem render_template_spec (vals : List (String × String)) (ts : List TemplateToken) :
    ((∃ out, render_template vals ts = .ok out) ↔
        ∀ p ∈ template_placeholders ts, (vals.lookup p).isSome = true)
    ∧ (∀ out, render_template vals ts = .ok out → out = ts.map (subst_token vals))
    ∧ (∀ e, render_template vals ts = .error e →
        ∃ p, e = .missingPlaceholder p ∧ p ∈ template_placeholders ts ∧ vals.lookup p = none) :=
  ⟨render_ok_iff vals ts, render_ok_subst vals ts, render_error_missing vals ts⟩

/-- Witness for C3: a template with placeholder USER renders once the
mapping supplies USER, and fails with the missing-placeholder error
under the empty mapping. -/
theorem render_template_spec_witness :
    (∃ out, render_template [("USER", "openff-jac")]
        [TemplateToken.ph "USER", TemplateToken.lit "-rest"] = .ok out)
    ∧ render_template [] [TemplateToken.ph "USER"]
        = .error (.missingPlaceholder "USER") :=
  ⟨(render_template_spec [("USER", "openff-jac")]
      [TemplateToken.ph "USER", TemplateToken.lit "-rest"]).1.mpr (by decide), rfl⟩

/-- Errors raised by the deployment manager, mirroring the spec's
error taxonomy for lifecycle operations. -/
inductive KubeError
  | alreadyExists (name : String)
  | notFound (name : String)
  | pathError (path : String)
deriving Repr, DecidableEq

/-- Outcome report of a delete: both objects removed cleanly, or the
secret deletion failed and was reported without being raised. -/
inductive DeleteReport
  | cleanly
  | secretIssueReported
deriving Repr, DecidableEq

/-- Modelled from the spec: `create_secret_deployment` in
`kubecustom/kubecustom.py` is not under `src/`.  It derives the
deployment name from the active configuration and the tag, fails with
`PathError` before any API call if the path is inaccessible, fails
with `AlreadyExistsError` if the deployment name already exists, and
otherwise submits secret creation then deployment creation, in that
order.  `fs` stands for local path accessibility; `cpus`, `mem` and
`replicas` parameterize the rendered manifest and do not affect which
objects exist. -/
def create_secret_deployment (fs : String → Bool) (st : ClusterState) (cfg : Configuration)
    (path tag : String) (cpus mem replicas : Nat) :
    Except KubeError ClusterState × List ApiCall :=
  let name := get_deployment_name cfg tag
  if fs path then
    if st.deployments.contains name then
      (.error (.alreadyExists name), [])
    else
      (.ok { deployments := name :: st.deployments, secrets := name :: st.secrets },
        [ApiCall.createSecret name, ApiCall.createDeployment name])
  else
    (.error (.pathError path), [])

/-- Modelled from the spec: `delete_secret_deployment` in
`kubecustom/kubecustom.py` is not under `src/`.  It deletes the
deployment first and then its secret, attempting the secret deletion
even when the deployment was already gone; a missing deployment makes
the call fail with `NotFoundError`, while a failing secret deletion
after a successful deployment deletion is reported, not raised. -/
def delete_secret_deployment (st : ClusterState) (name : String) :
    Except KubeError DeleteReport × ClusterState × List ApiCall :=
  let st2 : ClusterState :=
    { deployments := st.deployments.filter (fun d => d != name)
      secrets := st.secrets.filter (fun s => s != name) }
  let trace := [ApiCall.deleteDeployment name, ApiCall.deleteSecret name]
  if st.deployments.contains name then
    if st.secrets.contains name then
      (.ok .cleanly, st2, trace)
    else
      (.ok .secretIssueReported, st2, trace)
  else
    (.error (.notFound name), st2, trace)

/-- Filtering away a name leaves a list that does not contain it. -/
theorem contains_filter_ne (l : List String) (name : String) :
    (l.filter (fun d => d != name)).contains name = false := by
  rw [Bool.eq_false_iff]
  intro hc
  have hmem : name ∈ l.filter (fun d => d != name) := List.elem_iff.mp hc
  have := (List.mem_filter.mp hmem).2
  simp at this

/-- Whatever the branch taken, `delete_secret_deployment` leaves the
state with both objects of that name filtered out. -/
theorem delete_state_eq (st : ClusterState) (name : String) :
    (delete_secret_deployment st name).2.1
      = { deployments := st.deployments.filter (fun d => d != name)
          secrets := st.secrets.filter (fun s => s != name) } := by
  rw [delete_secret_deployment]
  split
  · split <;> rfl
  · rfl

/-- Whatever the branch taken, `delete_secret_deployment` issues the
deployment deletion first and the secret deletion second. -/
theorem delete_trace_eq (st : ClusterState) (name : String) :
    (delete_secret_deployment st name).2.2
      = [ApiCall.deleteDeployment name, ApiCall.deleteSecret name] := by
  rw [delete_secret_deployment]
  split
  · split <;> rfl
  · rfl

/-- C4: a successful `create_secret_deployment` followed immediately
by `delete_secret_deployment` on the derived deployment name succeeds
and leaves a state containing neither a deployment nor a secret under
that name. -/
theorem create_then_delete_clean (fs : String → Bool) (st : ClusterState) (cfg : Configuration)
    (path tag : String) (cpus mem replicas : Nat) (st1 : ClusterState) (calls : List ApiCall)
    (h : create_secret_deployment fs st cfg path tag cpus mem replicas = (.ok st1, calls)) :
    (delete_secret_deployment st1 (get_deployment_name cfg tag)).2.1.deployments.contains
        (get_deployment_name cfg tag) = false
    ∧ (delete_secret_deployment st1 (get_deployment_name cfg tag)).2.1.secrets.contains
        (get_deployment_name cfg tag) = false
    ∧ ∃ rep, (delete_secret_deployment st1 (get_deployment_name cfg tag)).1 = .ok rep := by
  cases hfs : fs path with
  | false => simp [create_secret_deployment, hfs] at h
  | true =>
  cases hc : st.deployments.contains (get_deployment_name cfg tag) with
  | true => simp [create_secret_deployment, hfs, List.elem_iff.mp hc] at h
  | false =>
  have hc2 : get_deployment_name cfg tag ∉ st.deployments := by
    intro hm
    have hct : st.deployments.contains (get_deployment_name cfg tag) = true :=
      List.elem_iff.mpr hm
    rw [hct] at hc
    cases hc
  simp [create_secret_deployment, hfs, hc2] at h
  obtain ⟨hst1, hcalls⟩ := h
  subst hst1
  refine ⟨?_, ?_, ?_⟩
  · rw [delete_state_eq]
    exact contains_filter_ne _ _
  · rw [delete_state_eq]
    exact contains_filter_ne _ _
  · rw [delete_secret_deployment]
    split
    · split
      · exact ⟨.cleanly, rfl⟩
      · exact ⟨.secretIssueReported, rfl⟩
    · rename_i hfalse
      exact absurd (List.elem_iff.mpr (List.mem_cons_self _ _)) hfalse

/-- An example state holding one unrelated deployment. -/
def other_state : ClusterState :=
  { deployments := ["openff-jac-qca-psi4-other"], secrets := ["openff-jac-qca-psi4-other"] }

/-- Witness for C4 at a concrete create followed by delete. -/
theorem create_then_delete_clean_witness :
    (delete_secret_deployment
        { deployments := get_deployment_name qca_psi4_example "pyddx-600"
            :: other_state.deployments,
          secrets := get_deployment_name qca_psi4_example "pyddx-600"
            :: other_state.secrets }
        (get_deployment_name qca_psi4_example "pyddx-600")).2.1.deployments.contains
        (get_deployment_name qca_psi4_example "pyddx-600") = false
    ∧ (delete_secret_deployment
        { deployments := get_deployment_name qca_psi4_example "pyddx-600"
            :: other_state.deployments,
          secrets := get_deployment_name qca_psi4_example "pyddx-600"
            :: other_state.secrets }
        (get_deployment_name qca_psi4_example "pyddx-600")).2.1.secrets.contains
        (get_deployment_name qca_psi4_example "pyddx-600") = false
    ∧ ∃ rep, (delete_secret_deployment
        { deployments := get_deployment_name qca_psi4_example "pyddx-600"
            :: other_state.deployments,
          secrets := get_deployment_name qca_psi4_example "pyddx-600"
            :: other_state.secrets }
        (get_deployment_name qca_psi4_example "pyddx-600")).1 = .ok rep :=
  create_then_delete_clean (fun _ => true) other_state qca_psi4_example
    "/some/path/to/target/directory/394_pyddx-600" "pyddx-600" 16 32 1
    { deployments := get_deployment_name qca_psi4_example "pyddx-600"
        :: other_state.deployments,
      secrets := get_deployment_name qca_psi4_example "pyddx-600"
        :: other_state.secrets }
    [ApiCall.createSecret (get_deployment_name qca_psi4_example "pyddx-600"),
      ApiCall.createDeployment (get_deployment_name qca_psi4_example "pyddx-600")]
    rfl

/-- C5: `delete_secret_deployment` issues the deployment deletion
first and the secret deletion second, attempts the secret deletion
even when the deployment is absent (no orphaned secret survives),
fails with `NotFoundError` exactly when the deployment does not exist,
returns a non-fatal report when only the secret deletion failed, and
reports a clean result when both deletions went through. -/
theorem delete_secret_deployment_spec (st : ClusterState) (name : String) :
    (delete_secret_deployment st name).2.2
        = [ApiCall.deleteDeployment name, ApiCall.deleteSecret name]
    ∧ (delete_secret_deployment st name).2.1.secrets.contains name = false
    ∧ (st.deployments.contains name = false →
        (delete_secret_deployment st name).1 = .error (.notFound name))
    ∧ (st.deployments.contains name = true → st.secrets.contains name = false →
        (delete_secret_deployment st name).1 = .ok .secretIssueReported)
    ∧ (st.deployments.contains name = true → st.secrets.contains name = true →
        (delete_secret_deployment st name).1 = .ok .cleanly) := by
  refine ⟨delete_trace_eq st name, ?_, ?_, ?_, ?_⟩
  · rw [delete_state_eq]
    exact contains_filter_ne _ _
  · intro hd
    rw [delete_secret_deployment, hd]
    simp
  · intro hd hs
    rw [delete_secret_deployment, hd, hs]
    simp
  · intro hd hs
    rw [delete_secret_deployment, hd, hs]
    simp

/-- Witness for C5: deleting a deployment whose secret is already gone
succeeds with a reported (non-fatal) secret issue, removes nothing
else, and issues deployment deletion before secret deletion. -/
theorem delete_secret_deployment_spec_witness :
    (delete_secret_deployment { deployments := ["d1"], secrets := [] } "d1").2.2
        = [ApiCall.deleteDeployment "d1", ApiCall.deleteSecret "d1"]
    ∧ (delete_secret_deployment { deployments := ["d1"], secrets := [] } "d1").1
        = .ok .secretIssueReported :=
  ⟨(delete_secret_deployment_spec { deployments := ["d1"], secrets := [] } "d1").1,
    (delete_secret_deployment_spec { deployments := ["d1"], secrets := [] } "d1").2.2.2.1
      (by decide) (by decide)⟩

/-- Modelled from the spec: the Pod Snapshot of
`kubecustom/pod.py` (not under `src/`): pod name, restart count,
memory and CPU usage, current phase and status reason, and the
previous phase and status reason when a previous container state
exists. -/
structure PodInfo where
  pod_name : String
  restart_count : Nat
  mem_usage : ℚ
  cpu_usage : ℚ
  current_phase : String
  current_status_reason : String
  previous_phase : Option String
  previous_status_reason : Option String
deriving Repr, DecidableEq

/-- Modelled from the spec: pods in a non-ready waiting state are
excluded from utilization aggregates; the remaining pods are the live
pod set of a deployment. -/
def live_pods (pods : List PodInfo) : List PodInfo :=
  pods.filter (fun p => !(p.current_phase == "waiting"))

/-- A deployment joined with its declared resource requests and its
pods, the input row of `utilization_per_deployment`. -/
structure DeploymentInfo where
  dep_name : String
  mem_request : ℚ
  cpu_request : ℚ
  pods : List PodInfo
deriving Repr, DecidableEq

/-- The per-deployment aggregate row reported by
`utilization_per_deployment`. -/
structure UtilizationRecord where
  dep_name : String
  n_replicas : Nat
  mem_mean : ℚ
  mem_min : ℚ
  mem_max : ℚ
  mem_request : ℚ
  cpu_mean : ℚ
  cpu_min : ℚ
  cpu_max : ℚ
  cpu_request : ℚ
deriving Repr, DecidableEq

/-- Arithmetic mean of a list of rationals (0 for the empty list). -/
def mean_q (xs : List ℚ) : ℚ := xs.sum / xs.length

/-- Minimum of a list of rationals (0 for the empty list; only used on
nonempty lists). -/
def min_q : List ℚ → ℚ
  | [] => 0
  | x :: xs => xs.foldl min x

/-- Maximum of a list of rationals (0 for the empty list; only used on
nonempty lists). -/
def max_q : List ℚ → ℚ
  | [] => 0
  | x :: xs => xs.foldl max x

/-- Modelled from the spec: the per-deployment step of
`utilization_per_deployment` in `kubecustom/deployment.py` (not under
`src/`): a deployment with an empty live pod set is skipped, otherwise
its live pods' usages are divided by the declared request and
aggregated as mean, min and max utilization. -/
def utilization_record (d : DeploymentInfo) : Option UtilizationRecord :=
  if (live_pods d.pods).isEmpty then none
  else
    some { dep_name := d.dep_name
           n_replicas := (live_pods d.pods).length
           mem_mean := mean_q ((live_pods d.pods).map (fun p => p.mem_usage / d.mem_request))
           mem_min := min_q ((live_pods d.pods).map (fun p => p.mem_usage / d.mem_request))
           mem_max := max_q ((live_pods d.pods).map (fun p => p.mem_usage / d.mem_request))
           mem_request := d.mem_request
           cpu_mean := mean_q ((live_pods d.pods).map (fun p => p.cpu_usage / d.cpu_request))
           cpu_min := min_q ((live_pods d.pods).map (fun p => p.cpu_usage / d.cpu_request))
           cpu_max := max_q ((live_pods d.pods).map (fun p => p.cpu_usage / d.cpu_request))
           cpu_request := d.cpu_request }

/-- Modelled from the spec: `utilization_per_deployment` reports, for
every deployment of the namespace with a nonempty live pod set, its
aggregate utilization record. -/
def utilization_per_deployment (deps : List DeploymentInfo) : List UtilizationRecord :=
  deps.filterMap utilization_record

/-- Folding `min` over a constant list from a matching seed stays at
the constant. -/
theorem foldl_min_const (c : ℚ) : ∀ (xs : List ℚ) (a : ℚ), (∀ x ∈ xs, x = c) → a = c →
    xs.foldl min a = c := by
  intro xs
  induction xs with
  | nil => intro a _ ha; exact ha
  | cons y ys ih =>
    intro a h ha
    have hy : y = c := h y (List.mem_cons_self y ys)
    have hmin : min a y = c := by rw [ha, hy, min_self]
    exact ih (min a y) (fun x hx => h x (List.mem_cons_of_mem _ hx)) hmin

/-- Folding `max` over a constant list from a matching seed stays at
the constant. -/
theorem foldl_max_const (c : ℚ) : ∀ (xs : List ℚ) (a : ℚ), (∀ x ∈ xs, x = c) → a = c →
    xs.foldl max a = c := by
  intro xs
  induction xs with
  | nil => intro a _ ha; exact ha
  | cons y ys ih =>
    intro a h ha
    have hy : y = c := h y (List.mem_cons_self y ys)
    have hmax : max a y = c := by rw [ha, hy, max_self]
    exact ih (max a y) (fun x hx => h x (List.mem_cons_of_mem _ hx)) hmax

/-- The minimum of a nonempty constant list is the constant. -/
theorem min_q_const (xs : List ℚ) (c : ℚ) (hne : xs ≠ []) (h : ∀ x ∈ xs, x = c) :
    min_q xs = c := by
  cases xs with
  | nil => exact absurd rfl hne
  | cons y ys =>
    rw [min_q]
    exact foldl_min_const c ys y (fun x hx => h x (List.mem_cons_of_mem _ hx))
      (h y (List.mem_cons_self y ys))

/-- The maximum of a nonempty constant list is the constant. -/
theorem max_q_const (xs : List ℚ) (c : ℚ) (hne : xs ≠ []) (h : ∀ x ∈ xs, x = c) :
    max_q xs = c := by
  cases xs with
  | nil => exact absurd rfl hne
  | cons y ys =>
    rw [max_q]
    exact foldl_max_const c ys y (fun x hx => h x (List.mem_cons_of_mem _ hx))
      (h y (List.mem_cons_self y ys))

/-- The mean of a nonempty constant list is the constant. -/
theorem mean_q_const (xs : List ℚ) (c : ℚ) (hne : xs ≠ []) (h : ∀ x ∈ xs, x = c) :
    mean_q xs = c := by
  rw [mean_q]
  have hsum : xs.sum = xs.length • c := List.sum_eq_card_nsmul xs c h
  rw [hsum, nsmul_eq_mul]
  have hlen : (xs.length : ℚ) ≠ 0 := by
    simp [List.length_eq_zero]
    exact hne
  exact mul_div_cancel_left₀ c hlen

/-- C6: `utilization_per_deployment` reports only deployments whose
live pod set is nonempty (empty ones are skipped, not reported as
zero), and a reported deployment whose live pods all carry the same
usage U against declared request R has mean, min and max utilization
all equal to U/R, for memory and for CPU alike. -/
theorem utilization_per_deployment_spec (deps : List DeploymentInfo) :
    (∀ r ∈ utilization_per_deployment deps,
        ∃ d, d ∈ deps ∧ utilization_record d = some r ∧ live_pods d.pods ≠ [])
    ∧ (∀ d : DeploymentInfo, live_pods d.pods = [] → utilization_record d = none)
    ∧ (∀ (d : DeploymentInfo) (r : UtilizationRecord), utilization_record d = some r →
        (∀ U : ℚ, (∀ p ∈ live_pods d.pods, p.mem_usage = U) →
            r.mem_mean = U / d.mem_request ∧ r.mem_min = U / d.mem_request
              ∧ r.mem_max = U / d.mem_request)
        ∧ (∀ U : ℚ, (∀ p ∈ live_pods d.pods, p.cpu_usage = U) →
            r.cpu_mean = U / d.cpu_request ∧ r.cpu_min = U / d.cpu_request
              ∧ r.cpu_max = U / d.cpu_request)) := by
  have hnone : ∀ d : DeploymentInfo, live_pods d.pods = [] → utilization_record d = none := by
    intro d hd
    rw [utilization_record, hd]
    rfl
  refine ⟨?_, hnone, ?_⟩
  · intro r hr
    obtain ⟨d, hd, hrec⟩ := List.mem_filterMap.mp hr
    refine ⟨d, hd, hrec, ?_⟩
    intro hempty
    rw [hnone d hempty] at hrec
    cases hrec
  · intro d r hrec
    cases hemp : (live_pods d.pods).isEmpty with
    | true =>
      rw [utilization_record, hemp] at hrec
      cases hrec
    | false =>
      have hne : live_pods d.pods ≠ [] := by
        intro hnil
        rw [hnil] at hemp
        cases hemp
      rw [utilization_record, hemp] at hrec
      simp only [Bool.false_eq_true, if_false, Option.some.injEq] at hrec
      subst hrec
      constructor
      · intro U hU
        have hmapne : (live_pods d.pods).map (fun p => p.mem_usage / d.mem_request) ≠ [] := by
          intro hm
          exact hne (List.map_eq_nil_iff.mp hm)
        have hconst : ∀ x ∈ (live_pods d.pods).map (fun p => p.mem_usage / d.mem_request),
            x = U / d.mem_request := by
          intro x hx
          obtain ⟨p, hp, hpx⟩ := List.mem_map.mp hx
          rw [← hpx, hU p hp]
        exact ⟨mean_q_const _ _ hmapne hconst, min_q_const _ _ hmapne hconst,
          max_q_const _ _ hmapne hconst⟩
      · intro U hU
        have hmapne : (live_pods d.pods).map (fun p => p.cpu_usage / d.cpu_request) ≠ [] := by
          intro hm
          exact hne (List.map_eq_nil_iff.mp hm)
        have hconst : ∀ x ∈ (live_pods d.pods).map (fun p => p.cpu_usage / d.cpu_request),
            x = U / d.cpu_request := by
          intro x hx
          obtain ⟨p, hp, hpx⟩ := List.mem_map.mp hx
          rw [← hpx, hU p hp]
        exact ⟨mean_q_const _ _ hmapne hconst, min_q_const _ _ hmapne hconst,
          max_q_const _ _ hmapne hconst⟩

/-- A running pod of the documented example deployment. -/
def pod_ex : PodInfo :=
  { pod_name := "openff-jac-qca-psi4-pyddx-600-6cf5cf797c-9bgsm"
    restart_count := 0
    mem_usage := 8
    cpu_usage := 4
    current_phase := "running"
    current_status_reason := "Running"
    previous_phase := none
    previous_status_reason := none }

/-- A second running pod with the same usage figures. -/
def pod_ex2 : PodInfo :=
  { pod_ex with pod_name := "openff-jac-qca-psi4-pyddx-600-6cf5cf797c-htssf" }

/-- The documented example deployment: two live replicas, requests 32
(memory, GB) and 16 (CPU cores). -/
def dep_ex : DeploymentInfo :=
  { dep_name := "openff-jac-qca-psi4-pyddx-600"
    mem_request := 32
    cpu_request := 16
    pods := [pod_ex, pod_ex2] }

/-- A deployment whose only pod is in the waiting state, so its live
pod set is empty. -/
def dep_waiting : DeploymentInfo :=
  { dep_name := "openff-jac-qca-psi4-stuck"
    mem_request := 32
    cpu_request := 16
    pods := [{ pod_ex with current_phase := "waiting" }] }

/-- The aggregate record of `dep_ex`: both replicas at utilization
8/32 = 4/16 = 1/4. -/
def rec_ex : UtilizationRecord :=
  { dep_name := "openff-jac-qca-psi4-pyddx-600"
    n_replicas := 2
    mem_mean := 1/4
    mem_min := 1/4
    mem_max := 1/4
    mem_request := 32
    cpu_mean := 1/4
    cpu_min := 1/4
    cpu_max := 1/4
    cpu_request := 16 }

/-- Witness for C6: the all-waiting deployment is skipped, and the
two-replica deployment with identical usage 8 against request 32 (CPU
4 against 16) reports mean, min and max utilization 8/32 (resp.
4/16). -/
theorem utilization_per_deployment_spec_witness :
    utilization_record dep_waiting = none
    ∧ utilization_record dep_ex = some rec_ex
    ∧ rec_ex.mem_mean = (8 : ℚ) / 32 ∧ rec_ex.mem_min = (8 : ℚ) / 32
    ∧ rec_ex.mem_max = (8 : ℚ) / 32
    ∧ rec_ex.cpu_mean = (4 : ℚ) / 16 ∧ rec_ex.cpu_min = (4 : ℚ) / 16
    ∧ rec_ex.cpu_max = (4 : ℚ) / 16 := by
  have hlive : live_pods dep_ex.pods = [pod_ex, pod_ex2] := rfl
  have hsome : utilization_record dep_ex = some rec_ex := by
    rw [utilization_record, hlive]
    norm_num [mean_q, min_q, max_q, dep_ex, pod_ex, pod_ex2, rec_ex]
  have h := (utilization_per_deployment_spec [dep_ex]).2.2 dep_ex rec_ex hsome
  have hmem := h.1 8 (by decide)
  have hcpu := h.2 4 (by decide)
  exact ⟨(utilization_per_deployment_spec [dep_ex]).2.1 dep_waiting (by decide), hsome,
    hmem.1, hmem.2.1, hmem.2.2, hcpu.1, hcpu.2.1, hcpu.2.2⟩

/-- Modelled from the spec: `delete_pods_by_status` in
`kubecustom/pod.py` (not under `src/`): it lists the visible pods,
issues one API delete per pod whose current status reason matches the
given string exactly, and returns how many it deleted.  A pod that
vanished between listing and deletion answers its delete call with
not-found, which is treated as already-satisfied: neither the returned
count nor the overall success depends on the `vanished` set. -/
def delete_pods_by_status (pods : List PodInfo) (vanished : List String) (status : String) :
    Except KubeError Nat × List ApiCall :=
  (.ok (pods.filter (fun p => p.current_status_reason == status)).length,
    (pods.filter (fun p => p.current_status_reason == status)).map
      (fun p => ApiCall.deletePod p.pod_name))

/-- C7: when no pod's current status reason matches, the call returns
a deleted-count of 0 and issues no API delete call; in general it
issues delete calls exactly for the matching pods, returns the number
of matching pods, and never fails — in particular its outcome is the
same whether or not some listed pods have meanwhile vanished. -/
theorem delete_pods_by_status_spec (pods : List PodInfo) (vanished : List String)
    (status : String) :
    ((∀ p ∈ pods, p.current_status_reason ≠ status) →
        delete_pods_by_status pods vanished status = (.ok 0, []))
    ∧ (∀ n, ApiCall.deletePod n ∈ (delete_pods_by_status pods vanished status).2 ↔
        ∃ p, p ∈ pods ∧ p.pod_name = n ∧ p.current_status_reason = status)
    ∧ (delete_pods_by_status pods vanished status).1
        = .ok (pods.countP (fun p => p.current_status_reason == status))
    ∧ delete_pods_by_status pods vanished status = delete_pods_by_status pods [] status := by
  refine ⟨?_, ?_, ?_, rfl⟩
  · intro hnone
    rw [delete_pods_by_status]
    have hfil : pods.filter (fun p => p.current_status_reason == status) = [] := by
      rw [List.filter_eq_nil_iff]
      intro p hp
      simp [hnone p hp]
    rw [hfil]
    rfl
  · intro n
    rw [delete_pods_by_status]
    simp only [List.mem_map, List.mem_filter]
    constructor
    · rintro ⟨p, ⟨hp, hst⟩, hn⟩
      exact ⟨p, hp, by cases hn; rfl, by simpa using hst⟩
    · rintro ⟨p, hp, hn, hst⟩
      exact ⟨p, ⟨hp, by simpa using hst⟩, by rw [hn]⟩
  · rw [delete_pods_by_status, List.countP_eq_length_filter]

/-- Witness for C7: on the two running example pods, deleting by
status "ContainerCreating" deletes nothing and issues no API call. -/
theorem delete_pods_by_status_spec_witness :
    delete_pods_by_status [pod_ex, pod_ex2] ["gone-pod"] "ContainerCreating" = (.ok 0, []) :=
  (delete_pods_by_status_spec [pod_ex, pod_ex2] ["gone-pod"] "ContainerCreating").1 (by decide)

/-- A cpu/memory/ephemeral-storage triple as it appears in the
manifest's resources blocks. -/
structure ResourceAmounts where
  cpu : String
  memory : String
  ephemeral_storage : String
deriving Repr, DecidableEq

/-- A container volume mount of the manifest. -/
structure VolumeMountSpec where
  mount_name : String
  mountPath : String
  readOnly : Bool
deriving Repr, DecidableEq

/-- A pod volume of the manifest: a secret volume carries the secret's
name, an emptyDir volume carries none. -/
structure VolumeSpec where
  volume_name : String
  secret_secretName : Option String
deriving Repr, DecidableEq

/-- A scheduling toleration of the manifest. -/
structure TolerationSpec where
  key : String
  operator : String
  effect : String
deriving Repr, DecidableEq

/-- The deployment manifest shape of
`kubecustom/template_files/deployment_qca.yaml`, flattened: metadata
name and labels, replica count, pod selector labels, pod template
labels, scheduling fields, the single container with its resources,
mounts and environment, and the pod volumes. -/
structure DeploymentManifest where
  apiVersion : String
  kind : String
  metadata_name : String
  metadata_labels : List (String × String)
  replicas : Nat
  selector_matchLabels : List (String × String)
  template_labels : List (String × String)
  priorityClassName : String
  tolerations : List TolerationSpec
  container_image : String
  container_name : String
  resources_limits : ResourceAmounts
  resources_requests : ResourceAmounts
  volumeMounts : List VolumeMountSpec
  env : List (String × String)
  volumes : List VolumeSpec
deriving Repr, DecidableEq

/-- The values substituted for the placeholders DEPLOYMENTNAME, USER,
REPLICAS, CONTAINERIMAGE, CONTAINERNAME, CPUS and MEMORYG of the
deployment template. -/
structure QcaTemplateValues where
  DEPLOYMENTNAME : String
  USER : String
  REPLICAS : Nat
  CONTAINERIMAGE : String
  CONTAINERNAME : String
  CPUS : String
  MEMORYG : String
deriving Repr, DecidableEq

/-- Shallow embedding of
`kubecustom/template_files/deployment_qca.yaml`: the rendered manifest
as a function of the placeholder values, transcribing the template
field for field. -/
def deployment_qca (v : QcaTemplateValues) : DeploymentManifest :=
  { apiVersion := "apps/v1"
    kind := "Deployment"
    metadata_name := v.DEPLOYMENTNAME
    metadata_labels := [("k8s-app", v.USER)]
    replicas := v.REPLICAS
    selector_matchLabels := [("k8s-app", v.USER)]
    template_labels := [("k8s-app", v.USER)]
    priorityClassName := "nice"
    tolerations :=
      [{ key := "nautilus.io/suncave", operator := "Exists", effect := "NoSchedule" },
       { key := "nautilus.io/wave", operator := "Exists", effect := "NoSchedule" },
       { key := "nautilus.io/science-dmz", operator := "Exists", effect := "NoSchedule" }]
    container_image := v.CONTAINERIMAGE
    container_name := v.CONTAINERNAME
    resources_limits :=
      { cpu := v.CPUS, memory := v.MEMORYG, ephemeral_storage := "20Gi" }
    resources_requests :=
      { cpu := v.CPUS, memory := v.MEMORYG, ephemeral_storage := "20Gi" }
    volumeMounts :=
      [{ mount_name := "manager-config-secret", mountPath := "/etc/qcfractal-manager",
         readOnly := true },
       { mount_name := "fscratch", mountPath := "/fscratch", readOnly := false }]
    env := [("SCF_MEM_SAFETY_FACTOR", "0.5")]
    volumes :=
      [{ volume_name := "manager-config-secret", secret_secretName := some v.DEPLOYMENTNAME },
       { volume_name := "fscratch", secret_secretName := none }] }

/-- C9: in every rendered deployment manifest the pod selector and the
pod template labels are exactly the single pair k8s-app ↦ USER —
nothing derived from the deployment name or the tag — so two
renderings for the same user have identical selector and template
labels whatever their deployment names. -/
theorem deployment_qca_labels_user_only (v v1 v2 : QcaTemplateValues) :
    (deployment_qca v).selector_matchLabels = [("k8s-app", v.USER)]
    ∧ (deployment_qca v).template_labels = [("k8s-app", v.USER)]
    ∧ (deployment_qca v).metadata_labels = [("k8s-app", v.USER)]
    ∧ (v1.USER = v2.USER →
        (deployment_qca v1).selector_matchLabels = (deployment_qca v2).selector_matchLabels
        ∧ (deployment_qca v1).template_labels = (deployment_qca v2).template_labels) := by
  refine ⟨rfl, rfl, rfl, fun h => ⟨?_, ?_⟩⟩ <;> simp [deployment_qca, h]

/-- The placeholder values of the documented "qca-psi4" scenario:
tag "pyddx-600", 16 CPUs, 32G memory, one replica. -/
def qca_values_a : QcaTemplateValues :=
  { DEPLOYMENTNAME := "openff-jac-qca-psi4-pyddx-600"
    USER := "openff-jac"
    REPLICAS := 1
    CONTAINERIMAGE := "ghcr.io/image"
    CONTAINERNAME := "my-org-pod"
    CPUS := "16"
    MEMORYG := "32G" }

/-- The same values under a different tag, hence a different
deployment name. -/
def qca_values_b : QcaTemplateValues :=
  { qca_values_a with DEPLOYMENTNAME := "openff-jac-qca-psi4-my-tag" }

/-- Witness for C9: two renderings for the same user but different
deployment names carry identical selector and template labels. -/
theorem deployment_qca_labels_user_only_witness :
    (deployment_qca qca_values_a).selector_matchLabels
      = (deployment_qca qca_values_b).selector_matchLabels
    ∧ (deployment_qca qca_values_a).template_labels
      = (deployment_qca qca_values_b).template_labels :=
  (deployment_qca_labels_user_only qca_values_a qca_values_a qca_values_b).2.2.2 rfl

/-- C10: every rendered manifest declares container resource requests
equal to limits — cpu and memory come from the same CPUS and MEMORYG
values, ephemeral-storage is fixed at "20Gi" in both blocks — so any
utilization figure computed against the declared requests equals the
one computed against the limits. -/
theorem deployment_qca_requests_eq_limits (v : QcaTemplateValues) (usage : ℚ)
    (parse : String → ℚ) :
    (deployment_qca v).resources_requests = (deployment_qca v).resources_limits
    ∧ (deployment_qca v).resources_requests.cpu = v.CPUS
    ∧ (deployment_qca v).resources_requests.memory = v.MEMORYG
    ∧ (deployment_qca v).resources_requests.ephemeral_storage = "20Gi"
    ∧ (deployment_qca v).resources_limits.ephemeral_storage = "20Gi"
    ∧ usage / parse (deployment_qca v).resources_requests.cpu
        = usage / parse (deployment_qca v).resources_limits.cpu
    ∧ usage / parse (deployment_qca v).resources_requests.memory
        = usage / parse (deployment_qca v).resources_limits.memory :=
  ⟨rfl, rfl, rfl, rfl, rfl, rfl, rfl⟩

end Kubecustom
